import Mathlib

/-!
Verification of the multi-site WordPress MCP server (`main.py`) against its
natural-language specification.  The Python source is shallowly embedded:

* JSON values (Python dicts/lists produced by `json`) become the inductive
  type `Jval`; Python dict update (`d[k] = v`) becomes `dictSet`.
* The process environment becomes an association list `Cfg` with unique keys
  (as in `os.environ`); `env.get` becomes `List.lookup`.
* `str.replace`, `str.upper`, `str.lower`, `str.startswith`, substring
  containment (`in`) and `f"{n:02d}"` formatting are embedded for the ASCII
  fragment actually reaching them (Python's `str.upper`/`str.lower` agree
  with the ASCII maps on ASCII input).
* The network is an oracle `HttpRequest → HttpResponse`; a dispatcher call
  returns its result together with the list of HTTP requests it issued, so
  "no network I/O happened" is "the issued-request list is empty".
  `response.raise_for_status()` raises exactly on status codes in
  [400, 600) (the `requests` library's documented behaviour), which
  `handleResponse` embeds.
* Python exceptions become `Except WPError`; the `ValueError` messages are
  the exact strings from the source, while the rendering of the external
  `requests.HTTPError` (whose text is produced by the `requests` library,
  not this repository) is modelled by `errStr` as status plus body.
-/

/-- JSON-like values as produced by Python's `json` module: the value space
of request parameters, request bodies and backend responses. -/
inductive Jval where
  | null : Jval
  | bool : Bool → Jval
  | num : Int → Jval
  | str : String → Jval
  | arr : List Jval → Jval
  | obj : List (String × Jval) → Jval

/-- Python dict assignment `d[k] = v`: overwrite in place if the key exists,
else append (Python dicts preserve insertion order). -/
def dictSet {α : Type} (k : String) (v : α) : List (String × α) → List (String × α)
  | [] => [(k, v)]
  | (k', v') :: rest => if k' = k then (k, v) :: rest else (k', v') :: dictSet k v rest

/-- The process environment (`os.environ`): a key/value map with unique keys. -/
def Cfg : Type := List (String × String)

/-- Python `str.replace(pat, rep)` on character lists, for a non-empty
pattern `p :: ps`: replace non-overlapping occurrences left to right.
Recursion is on a fuel following the input length (every step consumes at
least one input character, so fuel `s.length` never runs out); this keeps
the definition structurally recursive and kernel-reducible. -/
def replaceGo (p : Char) (ps rep : List Char) : Nat → List Char → List Char
  | _, [] => []
  | 0, s => s
  | fuel + 1, c :: cs =>
    if (p :: ps).isPrefixOf (c :: cs) then
      rep ++ replaceGo p ps rep fuel (cs.drop ps.length)
    else
      c :: replaceGo p ps rep fuel cs

/-- Python `s.replace(pat, rep)` (the empty pattern never occurs in the
source; it is mapped to the identity). -/
def strReplace (s pat rep : String) : String :=
  match pat.data with
  | [] => s
  | p :: ps => String.mk (replaceGo p ps rep.data s.data.length s.data)

/-- Containment of `sub` as a contiguous sublist: `sub` is a prefix of some
suffix. -/
def listContainsSub (sub : List Char) : List Char → Bool
  | [] => sub.isEmpty
  | c :: cs => sub.isPrefixOf (c :: cs) || listContainsSub sub cs

/-- Python `sub in s` for strings: substring containment. -/
def strContainsSub (s sub : String) : Bool :=
  listContainsSub sub.data s.data

/-- Python `s.startswith(pre)`. -/
def strStartsWith (s pre : String) : Bool :=
  pre.data.isPrefixOf s.data

/-- Python `str.lower` on the ASCII fragment (all site names in scope are
ASCII; Python agrees with this map there). -/
def pyCharLower (c : Char) : Char :=
  if 65 ≤ c.toNat ∧ c.toNat ≤ 90 then Char.ofNat (c.toNat + 32) else c

/-- Python `s.lower()` (ASCII fragment). -/
def pyLower (s : String) : String :=
  String.mk (s.data.map pyCharLower)

/-- Python `str.upper` on the ASCII fragment (HTTP method strings are
ASCII; Python agrees with this map there). -/
def pyCharUpper (c : Char) : Char :=
  if 97 ≤ c.toNat ∧ c.toNat ≤ 122 then Char.ofNat (c.toNat - 32) else c

/-- Python `s.upper()` (ASCII fragment). -/
def pyUpper (s : String) : String :=
  String.mk (s.data.map pyCharUpper)

/-- Configuration for a WordPress site (`WordPressSite` dataclass). -/
structure WordPressSite where
  name : String
  url : String
  username : String
  app_password : String
deriving DecidableEq, Repr

/-- Python `str.rstrip('/')`: drop trailing `/` characters. -/
def rstripSlash (s : String) : String :=
  String.mk ((s.data.reverse.dropWhile (fun c => c = '/')).reverse)

/-- `WordPressSite.get_api_base_url`. -/
def WordPressSite.get_api_base_url (site : WordPressSite) : String :=
  rstripSlash site.url ++ "/wp-json/wp/v2"

/-- Extraction of a candidate site name from an environment key, as the
source does it: `key.replace('SITE_', '').replace('_URL', '')`.  Note both
`replace` calls replace every occurrence, not just the prefix/suffix. -/
def extractSiteName (key : String) : String :=
  strReplace (strReplace key "SITE_" "") "_URL" ""

/-- The candidate-name scan of `load_wordpress_sites`: every key starting
with `SITE_` and containing `_URL` contributes
`key.replace('SITE_','').replace('_URL','')`.  Python collects these in a
`set` (iteration order unspecified); the embedding fixes first-occurrence
order, which no theorem below depends on. -/
def siteNameCandidates (cfg : Cfg) : List String :=
  (((cfg : List (String × String)).map (fun kv => kv.fst)).filterMap (fun k =>
    if strStartsWith k "SITE_" ∧ strContainsSub k "_URL" then
      some (extractSiteName k)
    else
      none)).dedup

/-- `load_wordpress_sites`: for each candidate name look up the three
environment keys; keep the site only when all three values are present and
truthy (non-empty); key the result dict by the lowercased name. -/
def load_wordpress_sites (cfg : Cfg) : List (String × WordPressSite) :=
  (siteNameCandidates cfg).foldl (fun sites name =>
    match List.lookup ("SITE_" ++ name ++ "_URL") cfg,
          List.lookup ("SITE_" ++ name ++ "_USER") cfg,
          List.lookup ("SITE_" ++ name ++ "_APP_PASSWORD") cfg with
    | some url, some username, some app_password =>
        if url ≠ "" ∧ username ≠ "" ∧ app_password ≠ "" then
          dictSet (pyLower name) ⟨pyLower name, url, username, app_password⟩ sites
        else
          sites
    | _, _, _ => sites) []

/-- Errors raised by the dispatch layer.  The first three are `ValueError`s
carrying the exact message strings of the source; `upstream` is the
`requests.HTTPError` raised by `response.raise_for_status()`. -/
inductive WPError where
  | noSites : String → WPError
  | unknownSite : String → WPError
  | unsupportedMethod : String → WPError
  | upstream : Nat → Jval → WPError

/-- The `ValueError` message of `get_site` when no site is configured. -/
def noSitesMsg : String :=
  "No WordPress sites configured. Please set environment variables:\nSITE_<NAME>_URL, SITE_<NAME>_USER, SITE_<NAME>_APP_PASSWORD"

/-- The `ValueError` message of `get_site` for an unknown site name:
`f"Site '{site_name}' not found. Available sites: {available}"` with
`available = ', '.join(sites.keys())`. -/
def unknownSiteMsg (site_name : String) (known : List String) : String :=
  "Site '" ++ site_name ++ "' not found. Available sites: " ++ String.intercalate ", " known

/-- `get_site`: reload the registry, fail when it is empty, fail when the
name is absent, otherwise return the site. -/
def get_site (cfg : Cfg) (site_name : String) : Except WPError WordPressSite :=
  let sites := load_wordpress_sites cfg
  if sites.isEmpty then
    .error (.noSites noSitesMsg)
  else
    match List.lookup site_name sites with
    | some s => .ok s
    | none => .error (.unknownSite (unknownSiteMsg site_name (sites.map (fun kv => kv.fst))))

/-- Base64 alphabet. -/
def b64Char (n : Nat) : Char :=
  (("ABCDEFGHIJKLMNOPQRSTUVWXYZabcdefghijklmnopqrstuvwxyz0123456789+/").data.getD n 'A')

/-- Base64 of a byte sequence, with `=` padding, as `base64.b64encode`. -/
def b64Encode : List Nat → List Char
  | [] => []
  | [a] => [b64Char (a / 4), b64Char ((a % 4) * 16), '=', '=']
  | [a, b] => [b64Char (a / 4), b64Char ((a % 4) * 16 + b / 16), b64Char ((b % 16) * 4), '=']
  | a :: b :: c :: rest =>
      [b64Char (a / 4), b64Char ((a % 4) * 16 + b / 16),
       b64Char ((b % 16) * 4 + c / 64), b64Char (c % 64)] ++ b64Encode rest

/-- UTF-8 encoding of one character (`str.encode('utf-8')`). -/
def utf8EncodeChar (c : Char) : List Nat :=
  let n := c.toNat
  if n < 128 then [n]
  else if n < 2048 then [192 + n / 64, 128 + n % 64]
  else if n < 65536 then [224 + n / 4096, 128 + (n / 64) % 64, 128 + n % 64]
  else [240 + n / 262144, 128 + (n / 4096) % 64, 128 + (n / 64) % 64, 128 + n % 64]

/-- `WordPressSite.get_auth_headers`: HTTP Basic credentials from
`base64.b64encode(f"{username}:{app_password}".encode('utf-8'))`. -/
def WordPressSite.get_auth_headers (site : WordPressSite) : List (String × String) :=
  let credentials := site.username ++ ":" ++ site.app_password
  let encoded := String.mk (b64Encode (credentials.data.foldr (fun c acc => utf8EncodeChar c ++ acc) []))
  [("Authorization", "Basic " ++ encoded), ("Content-Type", "application/json")]

/-- One outbound HTTP request as handed to the `requests` library: the
method, the full URL, the headers, the query-string parameters (`params=`)
and the JSON payload (`json=`). -/
structure HttpRequest where
  method : String
  url : String
  headers : List (String × String)
  query : List (String × Jval)
  payload : Option (List (String × Jval))

/-- The backend's response: status code and parsed JSON body. -/
structure HttpResponse where
  status : Nat
  body : Jval

/-- `response.raise_for_status()` followed by `response.json()`: the
`requests` library raises `HTTPError` exactly for status codes in
[400, 600); any other status returns the parsed body. -/
def handleResponse (resp : HttpResponse) : Except WPError Jval :=
  if 400 ≤ resp.status ∧ resp.status < 600 then
    .error (.upstream resp.status resp.body)
  else
    .ok resp.body

/-- Issue one request against the network oracle and handle the response;
the second component records the network I/O performed. -/
def runReq (oracle : HttpRequest → HttpResponse) (req : HttpRequest) :
    Except WPError Jval × List HttpRequest :=
  (handleResponse (oracle req), [req])

/-- Python `params or {}` (an absent or empty dict becomes the empty dict). -/
def dictOrEmpty (params : Option (List (String × Jval))) : List (String × Jval) :=
  match params with
  | some p => p
  | none => []

/-- Python `data or params or {}`: the first truthy (present and non-empty)
of `data`, `params`, `{}`. -/
def pyOrDict (data params : Option (List (String × Jval))) : List (String × Jval) :=
  match data with
  | some d => if d.isEmpty then dictOrEmpty params else d
  | none => dictOrEmpty params

/-- The method-dispatch block of `make_wp_request`, for an already
uppercased method `M` and a resolved site: the URL and auth headers are
built, then one branch per supported verb issues the request; any other
`M` fails with `ValueError` and no request is issued. -/
def dispatchM (oracle : HttpRequest → HttpResponse) (site : WordPressSite)
    (endpoint : String) (params data : Option (List (String × Jval)))
    (M : String) : Except WPError Jval × List HttpRequest :=
  let url := site.get_api_base_url ++ "/" ++ endpoint
  let headers := site.get_auth_headers
  if M = "GET" then
    runReq oracle ⟨"GET", url, headers, dictOrEmpty params, none⟩
  else if M = "POST" then
    runReq oracle ⟨"POST", url, headers, [], some (pyOrDict data params)⟩
  else if M = "PUT" then
    runReq oracle ⟨"PUT", url, headers, [], some (pyOrDict data params)⟩
  else if M = "PATCH" then
    runReq oracle ⟨"PATCH", url, headers, [], some (pyOrDict data params)⟩
  else if M = "DELETE" then
    runReq oracle ⟨"DELETE", url, headers, dictOrEmpty params, none⟩
  else
    (.error (.unsupportedMethod ("Unsupported HTTP method: " ++ M)), [])

/-- `make_wp_request`: resolve the site, uppercase the method
(`method = method.upper()`), then dispatch; unsupported methods fail with
`ValueError` before any request is issued.  Returns the result together
with the list of HTTP requests actually issued. -/
def make_wp_request (cfg : Cfg) (oracle : HttpRequest → HttpResponse)
    (site_name endpoint : String) (params : Option (List (String × Jval)))
    (method : String) (data : Option (List (String × Jval))) :
    Except WPError Jval × List HttpRequest :=
  match get_site cfg site_name with
  | .error e => (.error e, [])
  | .ok site => dispatchM oracle site endpoint params data (pyUpper method)

/-- The body assembled by `create_post`: mandatory `title`/`content`/`status`
plus the optional fields, each added under Python truthiness
(`if excerpt:`, `if categories:`, `if tags:`). -/
def create_post_data (title content status : String) (excerpt : Option String)
    (categories tags : Option (List Int)) : List (String × Jval) :=
  let data : List (String × Jval) :=
    [("title", .str title), ("content", .str content), ("status", .str status)]
  let data := match excerpt with
    | some e => if e = "" then data else dictSet "excerpt" (.str e) data
    | none => data
  let data := match categories with
    | some cs => if cs.isEmpty then data else dictSet "categories" (.arr (cs.map Jval.num)) data
    | none => data
  let data := match tags with
    | some ts => if ts.isEmpty then data else dictSet "tags" (.arr (ts.map Jval.num)) data
    | none => data
  data

/-- `create_post`: POST the assembled body to `posts`. -/
def create_post (cfg : Cfg) (oracle : HttpRequest → HttpResponse)
    (site_name title content status : String) (excerpt : Option String)
    (categories tags : Option (List Int)) :
    Except WPError Jval × List HttpRequest :=
  make_wp_request cfg oracle site_name "posts" none "POST"
    (some (create_post_data title content status excerpt categories tags))

/-- The body assembled by `update_post`: every optional field is added
exactly when it `is not None`. -/
def update_post_data (title content status excerpt : Option String)
    (categories tags : Option (List Int)) : List (String × Jval) :=
  let data : List (String × Jval) := []
  let data := match title with | some t => dictSet "title" (.str t) data | none => data
  let data := match content with | some c => dictSet "content" (.str c) data | none => data
  let data := match status with | some s => dictSet "status" (.str s) data | none => data
  let data := match excerpt with | some e => dictSet "excerpt" (.str e) data | none => data
  let data := match categories with
    | some cs => dictSet "categories" (.arr (cs.map Jval.num)) data
    | none => data
  let data := match tags with
    | some ts => dictSet "tags" (.arr (ts.map Jval.num)) data
    | none => data
  data

/-- `update_post`: POST the assembled body to `posts/{post_id}`. -/
def update_post (cfg : Cfg) (oracle : HttpRequest → HttpResponse)
    (site_name : String) (post_id : Int) (title content status excerpt : Option String)
    (categories tags : Option (List Int)) :
    Except WPError Jval × List HttpRequest :=
  make_wp_request cfg oracle site_name ("posts/" ++ toString post_id) none "POST"
    (some (update_post_data title content status excerpt categories tags))

/-- `delete_post`: the `force` flag is always put in the query, whatever
its value. -/
def delete_post (cfg : Cfg) (oracle : HttpRequest → HttpResponse)
    (site_name : String) (post_id : Int) (force : Bool) :
    Except WPError Jval × List HttpRequest :=
  make_wp_request cfg oracle site_name ("posts/" ++ toString post_id)
    (some [("force", .bool force)]) "DELETE" none

/-- Python `k in j` for a JSON value: key membership for dicts, element
membership for lists, substring test for strings; a `TypeError` (`none`)
otherwise. -/
def pyIn (k : String) : Jval → Option Bool
  | .obj fields => some (List.lookup k fields).isSome
  | .arr xs => some (xs.any (fun x => match x with | .str s => s = k | _ => false))
  | .str s => some (listContainsSub k.data s.data)
  | _ => none

/-- Python `j.get(k, default)`: only dicts have `.get`; anything else is an
`AttributeError` (`none`). -/
def pyGet (j : Jval) (k : String) (default : Jval) : Option Jval :=
  match j with
  | .obj fields => some ((List.lookup k fields).getD default)
  | _ => none

/-- Python `j[k]` for a string key: dict lookup (`KeyError` when absent);
a `TypeError` on non-dicts.  JSON object keys are strings, so a string
subscript never succeeds on arrays. -/
def pyIndex (j : Jval) (k : String) : Option Jval :=
  match j with
  | .obj fields => List.lookup k fields
  | _ => none

/-- Python `j[i]` for an integer subscript: list indexing (`IndexError`
when out of range); a `KeyError`/`TypeError` on anything else (JSON dict
keys are strings, so an integer subscript never succeeds on dicts). -/
def pyIndexNat (j : Jval) (i : Nat) : Option Jval :=
  match j with
  | .arr xs => xs.get? i
  | _ => none

/-- Python `len(j)`: length of lists, dicts and strings; a `TypeError`
otherwise. -/
def pyLen : Jval → Option Nat
  | .arr xs => some xs.length
  | .obj fields => some fields.length
  | .str s => some s.data.length
  | _ => none

/-- Python `for x in j`: the element sequence of a list, the keys of a
dict, the one-character strings of a string; a `TypeError` otherwise. -/
def pyIterList : Jval → Option (List Jval)
  | .arr xs => some xs
  | .obj fields => some (fields.map (fun kv => Jval.str kv.fst))
  | .str s => some (s.data.map (fun c => Jval.str (String.mk [c])))
  | _ => none

/-- The projection built for one post by `get_posts_summary`. -/
structure PostSummary where
  id : Jval
  title : Jval
  author : Jval
  categories : List Jval
  date : Jval
  link : Jval
  status : Jval

/-- The category block of the `get_posts_summary` loop body, with
Python's exception behaviour made explicit (`none` means the loop
raises): `categories = []` unless `_embedded` contains a non-empty
`wp:term`, in which case the names of its first term array are taken. -/
def catBlock (post : Jval) : Option (List Jval) := do
  let c1 ← pyIn "_embedded" post
  if c1 then do
    let emb ← pyIndex post "_embedded"
    let c2 ← pyIn "wp:term" emb
    if c2 then do
      let emb2 ← pyIndex post "_embedded"
      let terms ← pyIndex emb2 "wp:term"
      let n ← pyLen terms
      if 0 < n then do
        let emb3 ← pyIndex post "_embedded"
        let terms2 ← pyIndex emb3 "wp:term"
        let first ← pyIndexNat terms2 0
        let cats ← pyIterList first
        cats.mapM (fun cat => pyIndex cat "name")
      else pure []
    else pure []
  else pure []

/-- The author block of the `get_posts_summary` loop body:
`author_name = "Unknown"` unless `_embedded` contains a non-empty
`author` array, in which case `author[0].get("name", "Unknown")`. -/
def authorBlock (post : Jval) : Option Jval := do
  let a1 ← pyIn "_embedded" post
  if a1 then do
    let emb ← pyIndex post "_embedded"
    let c2 ← pyIn "author" emb
    if c2 then do
      let emb2 ← pyIndex post "_embedded"
      let authors ← pyIndex emb2 "author"
      let n ← pyLen authors
      if 0 < n then do
        let emb3 ← pyIndex post "_embedded"
        let authors2 ← pyIndex emb3 "author"
        let a0 ← pyIndexNat authors2 0
        pyGet a0 "name" (.str "Unknown")
      else pure (.str "Unknown")
    else pure (.str "Unknown")
  else pure (.str "Unknown")

/-- The per-post body of the `get_posts_summary` loop: category block,
author block, then the summary dict from `post.get(...)` projections. -/
def summarizePost (post : Jval) : Option PostSummary := do
  let categories ← catBlock post
  let author ← authorBlock post
  let t0 ← pyGet post "title" (.obj [])
  let title ← pyGet t0 "rendered" (.str "No title")
  let idv ← pyGet post "id" .null
  let date ← pyGet post "date" .null
  let link ← pyGet post "link" .null
  let status ← pyGet post "status" .null
  pure ⟨idv, title, author, categories, date, link, status⟩

/-- The response-shaping loop of `get_posts_summary` over the fetched
posts (the network fetch itself is the generic dispatcher). -/
def summarizeAll (posts : List Jval) : Option (List PostSummary) :=
  posts.mapM summarizePost

/-- Well-formedness of one embedded category/term object: the conventional
WordPress term shape, an object with a `name` field. -/
def wfTerm : Jval → Bool
  | .obj cf => (List.lookup "name" cf).isSome
  | _ => false

/-- The conventional WordPress REST post shape (spec section 6: responses
follow "the conventional WordPress REST resource shapes"): a JSON object
whose `title`, when present, is an object; whose `_embedded`, when present,
is an object whose `author` member, when present, is an array of user
objects and whose `wp:term` member, when present, is an array of term
arrays.  Field absence and empty embedded arrays are all allowed. -/
def wfPost : Jval → Bool
  | .obj fields =>
    (match List.lookup "title" fields with
     | some (.obj _) => true
     | some _ => false
     | none => true) &&
    (match List.lookup "_embedded" fields with
     | none => true
     | some (.obj ef) =>
        (match List.lookup "author" ef with
         | none => true
         | some (.arr []) => true
         | some (.arr (.obj _ :: _)) => true
         | some _ => false) &&
        (match List.lookup "wp:term" ef with
         | none => true
         | some (.arr []) => true
         | some (.arr (.arr cs :: _)) => cs.all wfTerm
         | some _ => false)
     | some _ => false)
  | _ => false

/-- The spec's description of the title: the nested `title.rendered`
field, defaulting to `"No title"` when absent. -/
def specTitle (fields : List (String × Jval)) : Jval :=
  match List.lookup "title" fields with
  | some (.obj tf) => (List.lookup "rendered" tf).getD (.str "No title")
  | _ => .str "No title"

/-- The spec's description of the author: the embedded `author[0]`'s
`name`, defaulting to `"Unknown"` when the side-channel is missing or the
embedded array is empty. -/
def specAuthor (fields : List (String × Jval)) : Jval :=
  match List.lookup "_embedded" fields with
  | some (.obj ef) =>
    (match List.lookup "author" ef with
     | some (.arr (.obj af :: _)) => (List.lookup "name" af).getD (.str "Unknown")
     | _ => .str "Unknown")
  | _ => .str "Unknown"

/-- The spec's description of the categories: the `name`s of the first
embedded `wp:term` array, in backend order and without de-duplication,
defaulting to the empty sequence. -/
def specCategories (fields : List (String × Jval)) : List Jval :=
  match List.lookup "_embedded" fields with
  | some (.obj ef) =>
    (match List.lookup "wp:term" ef with
     | some (.arr (.arr cs :: _)) =>
        cs.map (fun c => match c with
          | .obj cf => (List.lookup "name" cf).getD .null
          | _ => .null)
     | _ => [])
  | _ => []

/-- Modelled from the spec (section 4.4): the intended summary of one
post — title from the nested `title.rendered` (default `"No title"` when
absent), author from the embedded `author[0].name` (default `"Unknown"`
when the side-channel or array is missing/empty), categories the `name`s
of the first embedded `wp:term` array in order and without de-duplication,
and `id`/`date`/`link`/`status` carried over verbatim. -/
def specSummarize (post : Jval) : PostSummary :=
  let fields := match post with | .obj f => f | _ => []
  ⟨(List.lookup "id" fields).getD .null, specTitle fields, specAuthor fields,
   specCategories fields, (List.lookup "date" fields).getD .null,
   (List.lookup "link" fields).getD .null, (List.lookup "status" fields).getD .null⟩

/-- Zero-padded month formatting `f"{n:02d}"` for the values reaching it
(any non-negative single digit gains a leading zero; everything else
prints as-is, matching Python for width-2 formatting). -/
def fmt02 (n : Int) : String :=
  if 0 ≤ n ∧ n < 10 then "0" ++ toString n else toString n

/-- The query assembled by `get_posts_by_date` when the month is absent or
falsy: the whole calendar year. -/
def yearWindowParams (year : Int) (count : Int) : List (String × Jval) :=
  [("after", .str (toString year ++ "-01-01T00:00:00")),
   ("before", .str (toString (year + 1) ++ "-01-01T00:00:00")),
   ("per_page", .num count)]

/-- The query assembled by `get_posts_by_date`: `after`/`before` bounds
from the year and the (optional, possibly falsy) month, plus `per_page`. -/
def get_posts_by_date_params (year : Int) (month : Option Int) (count : Int) :
    List (String × Jval) :=
  match month with
  | some m =>
    if m ≠ 0 then
      [("after", .str (toString year ++ "-" ++ fmt02 m ++ "-01T00:00:00")),
       ("before", .str (toString (if m < 12 then year else year + 1) ++ "-" ++
          fmt02 (if m < 12 then m + 1 else 1) ++ "-01T00:00:00")),
       ("per_page", .num count)]
    else
      yearWindowParams year count
  | none => yearWindowParams year count

/-- `get_posts_by_date`: GET `posts` with the assembled date window. -/
def get_posts_by_date (cfg : Cfg) (oracle : HttpRequest → HttpResponse)
    (site_name : String) (year : Int) (month : Option Int) (count : Int) :
    Except WPError Jval × List HttpRequest :=
  make_wp_request cfg oracle site_name "posts"
    (some (get_posts_by_date_params year month count)) "GET" none

/-- Python `str(e)` of the caught exception: the `ValueError` messages are
from this repository; the `HTTPError` text is produced by the external
`requests` library and is modelled here as status plus a marker. -/
def errStr : WPError → String
  | .noSites m => m
  | .unknownSite m => m
  | .unsupportedMethod m => m
  | .upstream status _ => "HTTP error " ++ toString status

/-- The fixed success report of `get_site_stats`: a header naming the site
followed by placeholder lines; none of the five fetched results appears in
it. -/
def statsReport (site_name : String) : String :=
  String.intercalate "\n"
    ["# Site Statistics: " ++ site_name, "", "## Content Overview",
     "- Posts available", "- Pages available", "- Categories available",
     "- Tags available", "- Media items available", "",
     "Note: Use specific tools to get exact counts and details"]

/-- `get_site_stats`: five sequential reads inside one `try`; the first
exception aborts the remaining reads and the whole report, which degrades
to `"Error fetching site stats: " + str(e)`. -/
def get_site_stats (cfg : Cfg) (oracle : HttpRequest → HttpResponse)
    (site_name : String) : String × List HttpRequest :=
  let r1 := make_wp_request cfg oracle site_name "posts"
    (some [("per_page", .num 1), ("status", .str "publish")]) "GET" none
  match r1.1 with
  | .error e => ("Error fetching site stats: " ++ errStr e, r1.2)
  | .ok _ =>
  let r2 := make_wp_request cfg oracle site_name "pages"
    (some [("per_page", .num 1)]) "GET" none
  match r2.1 with
  | .error e => ("Error fetching site stats: " ++ errStr e, r1.2 ++ r2.2)
  | .ok _ =>
  let r3 := make_wp_request cfg oracle site_name "categories"
    (some [("per_page", .num 1)]) "GET" none
  match r3.1 with
  | .error e => ("Error fetching site stats: " ++ errStr e, r1.2 ++ r2.2 ++ r3.2)
  | .ok _ =>
  let r4 := make_wp_request cfg oracle site_name "tags"
    (some [("per_page", .num 1)]) "GET" none
  match r4.1 with
  | .error e => ("Error fetching site stats: " ++ errStr e, r1.2 ++ r2.2 ++ r3.2 ++ r4.2)
  | .ok _ =>
  let r5 := make_wp_request cfg oracle site_name "media"
    (some [("per_page", .num 1)]) "GET" none
  match r5.1 with
  | .error e => ("Error fetching site stats: " ++ errStr e, r1.2 ++ r2.2 ++ r3.2 ++ r4.2 ++ r5.2)
  | .ok _ => (statsReport site_name, r1.2 ++ r2.2 ++ r3.2 ++ r4.2 ++ r5.2)

/-- For a valid code point, `Char.ofNat` round-trips through `Char.toNat`. -/
theorem charToNat_ofNat (n : Nat) (h : n.isValidChar) : (Char.ofNat n).toNat = n := by
  unfold Char.ofNat
  rw [dif_pos h]
  simp only [Char.ofNatAux, Char.toNat, UInt32.toNat, UInt32.ofNatCore]
  simp [BitVec.toNat_ofNatLt]

/-- Uppercasing a character twice is the same as uppercasing it once. -/
theorem pyCharUpper_idem (c : Char) : pyCharUpper (pyCharUpper c) = pyCharUpper c := by
  by_cases h : 97 ≤ c.toNat ∧ c.toNat ≤ 122
  · have hv : (c.toNat - 32).isValidChar := Or.inl (by omega)
    have hn : (Char.ofNat (c.toNat - 32)).toNat = c.toNat - 32 := charToNat_ofNat _ hv
    unfold pyCharUpper
    rw [if_pos h, hn]
    rw [if_neg (by omega)]
  · have hc : pyCharUpper c = c := by unfold pyCharUpper; rw [if_neg h]
    rw [hc, hc]

/-- `s.upper().upper() == s.upper()`. -/
theorem pyUpper_idem (s : String) : pyUpper (pyUpper s) = pyUpper s := by
  unfold pyUpper
  apply String.ext
  show (s.data.map pyCharUpper).map pyCharUpper = s.data.map pyCharUpper
  rw [List.map_map]
  exact List.map_congr_left (fun c _ => pyCharUpper_idem c)

/-- When the site resolves, the dispatcher is the method-dispatch block on
the uppercased method. -/
theorem make_ok (cfg : Cfg) (oracle : HttpRequest → HttpResponse)
    (site_name endpoint : String) (params : Option (List (String × Jval)))
    (method : String) (data : Option (List (String × Jval))) (site : WordPressSite)
    (h : get_site cfg site_name = .ok site) :
    make_wp_request cfg oracle site_name endpoint params method data =
      dispatchM oracle site endpoint params data (pyUpper method) := by
  unfold make_wp_request
  rw [h]

/-- When site resolution fails, the dispatcher propagates the error and
issues no request. -/
theorem make_err (cfg : Cfg) (oracle : HttpRequest → HttpResponse)
    (site_name endpoint : String) (params : Option (List (String × Jval)))
    (method : String) (data : Option (List (String × Jval))) (e : WPError)
    (h : get_site cfg site_name = .error e) :
    make_wp_request cfg oracle site_name endpoint params method data = (.error e, []) := by
  unfold make_wp_request
  rw [h]

/-- `raise_for_status` does not raise outside [400, 600). -/
theorem handleResponse_ok (r : HttpResponse) (h : ¬(400 ≤ r.status ∧ r.status < 600)) :
    handleResponse r = .ok r.body := by
  unfold handleResponse
  rw [if_neg h]

/-- `raise_for_status` raises `HTTPError` on [400, 600). -/
theorem handleResponse_err (r : HttpResponse) (h : 400 ≤ r.status ∧ r.status < 600) :
    handleResponse r = .error (.upstream r.status r.body) := by
  unfold handleResponse
  rw [if_pos h]

/-- A one-site environment used as a concrete test fixture. -/
def cfgBlog : Cfg :=
  [("SITE_BLOG_URL", "https://blog.example"),
   ("SITE_BLOG_USER", "admin"),
   ("SITE_BLOG_APP_PASSWORD", "pw")]

/-- The site `cfgBlog` configures. -/
def siteBlog : WordPressSite := ⟨"blog", "https://blog.example", "admin", "pw"⟩

/-- A backend that answers every request with `200` and an empty list. -/
def oracleOk : HttpRequest → HttpResponse := fun _ => ⟨200, .arr []⟩

/-- A backend that answers every request with `304 Not Modified`. -/
def oracle304 : HttpRequest → HttpResponse := fun _ => ⟨304, .null⟩

/-- Claim C9: the dispatcher uppercases its method argument first, so any
call behaves identically to the same call with the method uppercased;
lowercase spellings are dispatched normally. -/
theorem make_wp_request_case_insensitive (cfg : Cfg) (oracle : HttpRequest → HttpResponse)
    (site_name endpoint : String) (params : Option (List (String × Jval)))
    (method : String) (data : Option (List (String × Jval))) :
    make_wp_request cfg oracle site_name endpoint params method data =
      make_wp_request cfg oracle site_name endpoint params (pyUpper method) data := by
  unfold make_wp_request
  rw [pyUpper_idem]

/-- Claim C8: when the site resolves and the uppercased method is none of
the five supported verbs, the call fails with the `Unsupported HTTP
method` `ValueError` and the issued-request list is empty, i.e. the
failure happens before any network I/O. -/
theorem unsupported_method_fails_before_io (cfg : Cfg) (oracle : HttpRequest → HttpResponse)
    (site_name endpoint : String) (params data : Option (List (String × Jval)))
    (method : String) (site : WordPressSite)
    (h : get_site cfg site_name = .ok site)
    (hm : pyUpper method ∉ (["GET", "POST", "PUT", "PATCH", "DELETE"] : List String)) :
    make_wp_request cfg oracle site_name endpoint params method data =
      (.error (.unsupportedMethod ("Unsupported HTTP method: " ++ pyUpper method)), []) := by
  simp only [List.mem_cons, List.not_mem_nil, or_false, not_or] at hm
  obtain ⟨h1, h2, h3, h4, h5⟩ := hm
  rw [make_ok cfg oracle site_name endpoint params method data site h]
  unfold dispatchM
  rw [if_neg h1, if_neg h2, if_neg h3, if_neg h4, if_neg h5]

/-- Witness for C8 at a concrete input: method `"FOO"` on a resolvable
site fails with the `ValueError` and issues no request. -/
theorem unsupported_method_fails_before_io_witness :
    get_site cfgBlog "blog" = .ok siteBlog
    ∧ pyUpper "FOO" ∉ (["GET", "POST", "PUT", "PATCH", "DELETE"] : List String)
    ∧ make_wp_request cfgBlog oracleOk "blog" "posts" none "FOO" none =
        (.error (.unsupportedMethod ("Unsupported HTTP method: " ++ pyUpper "FOO")), []) :=
  ⟨rfl, by decide,
   unsupported_method_fails_before_io cfgBlog oracleOk "blog" "posts" none none "FOO" siteBlog
     rfl (by decide)⟩

/-- The read branches of the method dispatch: GET and DELETE send the
query parameters and no payload. -/
theorem dispatchM_read (oracle : HttpRequest → HttpResponse) (site : WordPressSite)
    (endpoint : String) (params data : Option (List (String × Jval))) (M : String)
    (hm : M = "GET" ∨ M = "DELETE") :
    dispatchM oracle site endpoint params data M =
      runReq oracle ⟨M, site.get_api_base_url ++ "/" ++ endpoint, site.get_auth_headers,
        dictOrEmpty params, none⟩ := by
  rcases hm with hm | hm <;> subst hm <;> rfl

/-- The write branches of the method dispatch: POST, PUT and PATCH send
`data or params or {}` as the JSON payload and no query parameters. -/
theorem dispatchM_write (oracle : HttpRequest → HttpResponse) (site : WordPressSite)
    (endpoint : String) (params data : Option (List (String × Jval))) (M : String)
    (hm : M = "POST" ∨ M = "PUT" ∨ M = "PATCH") :
    dispatchM oracle site endpoint params data M =
      runReq oracle ⟨M, site.get_api_base_url ++ "/" ++ endpoint, site.get_auth_headers,
        [], some (pyOrDict data params)⟩ := by
  rcases hm with hm | hm | hm <;> subst hm <;> rfl

/-- Claim C4 (amended): every dispatched call is the handled response of
the one request it issues; `raise_for_status` turns exactly the statuses
in [400, 600) — 4xx/5xx, not every non-2xx — into `UpstreamError` with
the backend's status and body, and any other status (including every 2xx)
returns the parsed JSON body. -/
theorem upstream_error_iff_4xx_5xx (cfg : Cfg) (oracle : HttpRequest → HttpResponse)
    (site_name endpoint : String) (params data : Option (List (String × Jval)))
    (method : String) (site : WordPressSite)
    (h : get_site cfg site_name = .ok site)
    (hm : pyUpper method ∈ (["GET", "POST", "PUT", "PATCH", "DELETE"] : List String)) :
    ∃ req, make_wp_request cfg oracle site_name endpoint params method data =
        (handleResponse (oracle req), [req])
      ∧ (400 ≤ (oracle req).status ∧ (oracle req).status < 600 →
          handleResponse (oracle req) = .error (.upstream (oracle req).status (oracle req).body))
      ∧ (¬(400 ≤ (oracle req).status ∧ (oracle req).status < 600) →
          handleResponse (oracle req) = .ok (oracle req).body) := by
  simp only [List.mem_cons, List.not_mem_nil, or_false] at hm
  have hreq : ∃ req, dispatchM oracle site endpoint params data (pyUpper method) =
      runReq oracle req := by
    rcases hm with hm | hm | hm | hm | hm
    · exact ⟨_, dispatchM_read oracle site endpoint params data _ (Or.inl hm)⟩
    · exact ⟨_, dispatchM_write oracle site endpoint params data _ (Or.inl hm)⟩
    · exact ⟨_, dispatchM_write oracle site endpoint params data _ (Or.inr (Or.inl hm))⟩
    · exact ⟨_, dispatchM_write oracle site endpoint params data _ (Or.inr (Or.inr hm))⟩
    · exact ⟨_, dispatchM_read oracle site endpoint params data _ (Or.inr hm)⟩
  obtain ⟨req, hr⟩ := hreq
  rw [make_ok cfg oracle site_name endpoint params method data site h, hr]
  exact ⟨req, rfl, fun h45 => handleResponse_err _ h45, fun hnot => handleResponse_ok _ hnot⟩

/-- A backend that answers every request with `500` and a body. -/
def oracle500 : HttpRequest → HttpResponse := fun _ => ⟨500, .str "boom"⟩

/-- Witness for C4 (amended) at a concrete input: a 500 response surfaces
as `UpstreamError` with the backend's status and body. -/
theorem upstream_error_iff_4xx_5xx_witness :
    get_site cfgBlog "blog" = .ok siteBlog
    ∧ pyUpper "GET" ∈ (["GET", "POST", "PUT", "PATCH", "DELETE"] : List String)
    ∧ (make_wp_request cfgBlog oracle500 "blog" "posts" none "GET" none).1 =
        .error (.upstream 500 (.str "boom")) := by
  refine ⟨rfl, by decide, ?_⟩
  obtain ⟨req, heq, h45, h2⟩ :=
    upstream_error_iff_4xx_5xx cfgBlog oracle500 "blog" "posts" none none "GET" siteBlog
      rfl (by decide)
  rw [heq]
  exact h45 ⟨by show (400 : Nat) ≤ 500; omega, by show (500 : Nat) < 600; omega⟩

/-- Claim C4 counterexample: the backend status `304 Not Modified` is not
2xx, yet the call returns the parsed body instead of failing with
`UpstreamError`, because `raise_for_status` only raises on 4xx/5xx. -/
theorem non2xx_not_always_upstream_error :
    (make_wp_request cfgBlog oracle304 "blog" "posts" none "GET" none).1 = .ok .null
    ∧ (304 < 200 ∨ 300 ≤ 304) :=
  ⟨rfl, by decide⟩

/-- A present non-empty body wins in `data or params or {}`. -/
theorem pyOrDict_some_nonempty (d : List (String × Jval))
    (params : Option (List (String × Jval))) (hd : d ≠ []) :
    pyOrDict (some d) params = d := by
  unfold pyOrDict
  cases d with
  | nil => exact absurd rfl hd
  | cons x xs => rfl

/-- An absent or empty body falls back to `params or {}`. -/
theorem pyOrDict_unset (data params : Option (List (String × Jval)))
    (h : data = none ∨ data = some []) :
    pyOrDict data params = dictOrEmpty params := by
  rcases h with h | h <;> subst h <;> rfl

/-- Claim C3 (amended): for POST/PUT/PATCH the JSON payload is
`data or params or {}`: a present *and non-empty* body is the payload;
an absent or empty (falsy) body makes the query the payload instead, so
"present" in the claim must be read as "present and non-empty". -/
theorem write_payload_selection (cfg : Cfg) (oracle : HttpRequest → HttpResponse)
    (site_name endpoint : String) (params data : Option (List (String × Jval)))
    (method : String) (site : WordPressSite)
    (h : get_site cfg site_name = .ok site)
    (hm : pyUpper method = "POST" ∨ pyUpper method = "PUT" ∨ pyUpper method = "PATCH") :
    ∃ req, make_wp_request cfg oracle site_name endpoint params method data =
        (handleResponse (oracle req), [req])
      ∧ req.payload = some (pyOrDict data params)
      ∧ (∀ d, data = some d → d ≠ [] → req.payload = some d)
      ∧ ((data = none ∨ data = some []) → req.payload = some (dictOrEmpty params)) := by
  rw [make_ok cfg oracle site_name endpoint params method data site h,
      dispatchM_write oracle site endpoint params data (pyUpper method) hm]
  refine ⟨_, rfl, rfl, ?_, ?_⟩
  · intro d hd hne
    show some (pyOrDict data params) = some d
    rw [hd, pyOrDict_some_nonempty d params hne]
  · intro hu
    show some (pyOrDict data params) = some (dictOrEmpty params)
    rw [pyOrDict_unset data params hu]

/-- Witness for C3 (amended) at a concrete input: a non-empty body is the
payload even when a query is also supplied. -/
theorem write_payload_selection_witness :
    get_site cfgBlog "blog" = .ok siteBlog
    ∧ (make_wp_request cfgBlog oracleOk "blog" "posts" (some [("q", Jval.num 2)]) "POST"
        (some [("title", Jval.str "x")])).2.map (fun r => r.payload) =
      [some [("title", Jval.str "x")]] := by
  refine ⟨rfl, ?_⟩
  obtain ⟨req, heq, hpay, hbody, hunset⟩ :=
    write_payload_selection cfgBlog oracleOk "blog" "posts" (some [("q", Jval.num 2)])
      (some [("title", Jval.str "x")]) "POST" siteBlog rfl (Or.inl rfl)
  rw [heq]
  simp only [List.map_cons, List.map_nil]
  rw [hbody [("title", Jval.str "x")] rfl (by simp)]

/-- Claim C3 counterexample: with method POST, a query set to a non-empty
mapping and a body set to the (present but empty) mapping, the payload
sent is the query, not the body. -/
theorem post_empty_body_payload_is_query :
    (make_wp_request cfgBlog oracleOk "blog" "posts" (some [("a", Jval.num 1)]) "POST"
        (some [])).2.map (fun r => r.payload) = [some [("a", Jval.num 1)]]
    ∧ some [("a", Jval.num 1)] ≠ some ([] : List (String × Jval)) :=
  ⟨rfl, by simp⟩

/-- Claim C2 (code bug): `create_post` adds its optional fields under
Python truthiness, so the explicitly supplied empty list of categories
(and the empty excerpt) are dropped from the body — unlike `update_post`,
which tests `is not None` and keeps the explicit empty list, and unlike
`delete_post`, which always sends `force`, even when it is `False`. -/
theorem falsy_optionals_dropped :
    List.lookup "categories" (create_post_data "t" "c" "draft" none (some []) none) = none
    ∧ List.lookup "excerpt" (create_post_data "t" "c" "draft" (some "") none none) = none
    ∧ List.lookup "categories" (update_post_data none none none none (some []) none) =
        some (.arr [])
    ∧ (delete_post cfgBlog oracleOk "blog" 1 false).2.map (fun r => r.query) =
        [[("force", Jval.bool false)]] :=
  ⟨rfl, rfl, rfl, rfl⟩

/-- An environment whose one site is named `MYSITE`, a name that follows
the documented `SITE_<NAME>_URL` convention. -/
def cfgMySite : Cfg :=
  [("SITE_MYSITE_URL", "https://mysite.example"),
   ("SITE_MYSITE_USER", "admin"),
   ("SITE_MYSITE_APP_PASSWORD", "pw")]

/-- Claim C5 (code bug): name extraction uses `str.replace`, which removes
*every* occurrence of `SITE_` and `_URL`, so the complete, non-empty
triple for the site `MYSITE` is silently dropped (its candidate name comes
out as `MYURL`), and the registry is empty; a name like `BLOG` that does
not re-contain the markers works as documented. -/
theorem complete_triple_dropped_by_name_extraction :
    load_wordpress_sites cfgMySite = []
    ∧ extractSiteName "SITE_MYSITE_URL" = "MYURL"
    ∧ get_site cfgMySite "mysite" = .error (.noSites noSitesMsg)
    ∧ load_wordpress_sites cfgBlog = [("blog", siteBlog)] :=
  ⟨rfl, rfl, rfl, rfl⟩

/-- A backend on which only the `tags` read fails. -/
def oracleTagsFail : HttpRequest → HttpResponse := fun req =>
  if req.url = "https://blog.example/wp-json/wp/v2/tags" then ⟨500, .str "boom"⟩
  else ⟨200, .arr []⟩

/-- Claim C1 counterexample: with four of the five stats sub-calls
succeeding and only the `tags` call failing upstream, `get_site_stats`
returns the error string for the failure — not a partial report with the
other four results — and the fifth (`media`) call is never issued (only 4
requests go out). -/
theorem site_stats_aborts_on_single_failure :
    (get_site_stats cfgBlog oracleTagsFail "blog").1 =
      "Error fetching site stats: " ++ errStr (.upstream 500 (.str "boom"))
    ∧ (get_site_stats cfgBlog oracleTagsFail "blog").2.length = 4
    ∧ (get_site_stats cfgBlog oracleTagsFail "blog").1 ≠ statsReport "blog" :=
  ⟨rfl, rfl, by decide⟩

/-- Claim C7: `get_site` on an empty registry fails with the fixed
configuration message, which names all three required key suffixes; on a
non-empty registry and an unknown name it fails with a message listing
exactly the known site names (comma-joined); a known name returns its
site. -/
theorem get_site_error_reporting (cfg : Cfg) (n : String) :
    (load_wordpress_sites cfg = [] →
      get_site cfg n = .error (.noSites noSitesMsg)
      ∧ strContainsSub noSitesMsg "_URL" = true
      ∧ strContainsSub noSitesMsg "_USER" = true
      ∧ strContainsSub noSitesMsg "_APP_PASSWORD" = true)
    ∧ (load_wordpress_sites cfg ≠ [] → List.lookup n (load_wordpress_sites cfg) = none →
      get_site cfg n = .error (.unknownSite
        (unknownSiteMsg n ((load_wordpress_sites cfg).map (fun kv => kv.fst)))))
    ∧ (∀ site, List.lookup n (load_wordpress_sites cfg) = some site →
      get_site cfg n = .ok site) := by
  refine ⟨fun h => ⟨?_, by decide, by decide, by decide⟩, fun hne hlk => ?_, fun site hlk => ?_⟩
  · simp only [get_site]
    rw [h]
    rfl
  · simp only [get_site]
    cases hL : load_wordpress_sites cfg with
    | nil => exact absurd hL hne
    | cons x xs =>
      rw [hL] at hlk
      rw [hlk]
      simp [List.isEmpty_cons]
  · simp only [get_site]
    cases hL : load_wordpress_sites cfg with
    | nil =>
      rw [hL] at hlk
      simp at hlk
    | cons x xs =>
      rw [hL] at hlk
      rw [hlk]
      simp [List.isEmpty_cons]

/-- Witness for C7 at concrete inputs: the empty environment, an unknown
name on a one-site registry, and the known name on the same registry. -/
theorem get_site_error_reporting_witness :
    get_site [] "blog" = .error (.noSites noSitesMsg)
    ∧ get_site cfgBlog "shop" = .error (.unknownSite (unknownSiteMsg "shop" ["blog"]))
    ∧ get_site cfgBlog "blog" = .ok siteBlog := by
  refine ⟨((get_site_error_reporting [] "blog").1 rfl).1, ?_, ?_⟩
  · exact (get_site_error_reporting cfgBlog "shop").2.1 (by decide) rfl
  · exact (get_site_error_reporting cfgBlog "blog").2.2 siteBlog rfl

/-- First day of month `m` of year `y` at midnight, rendered exactly as
the code renders its window bounds (`YYYY-MM-01T00:00:00` with a
two-digit month). -/
def monthStart (y m : Int) : String :=
  toString y ++ "-" ++ fmt02 m ++ "-01T00:00:00"

/-- `(a ++ b).data` unfolds to list append. -/
theorem strData_append (a b : String) : (a ++ b).data = a.data ++ b.data := rfl

/-- The year-window bound `"{y}-01-01T00:00:00"` is the January month
start. -/
theorem yearBound_eq_monthStart (y : Int) :
    toString y ++ "-01-01T00:00:00" = monthStart y 1 := by
  unfold monthStart
  apply String.ext
  simp only [strData_append, List.append_assoc]
  exact congrArg (fun l => (toString y).data ++ l) rfl

/-- Claim C10: for every year and month in 1..12 the query window sent to
the dispatcher is [first day of the month, first day of the following
month), with December rolling over to January of the next year; an absent
or zero month gives the whole calendar year. -/
theorem get_posts_by_date_window (cfg : Cfg) (oracle : HttpRequest → HttpResponse)
    (site_name : String) (site : WordPressSite) (year count : Int)
    (h : get_site cfg site_name = .ok site) :
    (∀ m : Int, 1 ≤ m → m ≤ 12 →
      ∃ req, get_posts_by_date cfg oracle site_name year (some m) count =
          (handleResponse (oracle req), [req])
        ∧ req.query =
            [("after", .str (monthStart year m)),
             ("before", .str (monthStart (if m = 12 then year + 1 else year)
                                         (if m = 12 then 1 else m + 1))),
             ("per_page", .num count)])
    ∧ (∀ month : Option Int, month = none ∨ month = some 0 →
      ∃ req, get_posts_by_date cfg oracle site_name year month count =
          (handleResponse (oracle req), [req])
        ∧ req.query =
            [("after", .str (monthStart year 1)),
             ("before", .str (monthStart (year + 1) 1)),
             ("per_page", .num count)]) := by
  constructor
  · intro m h1 h12
    unfold get_posts_by_date
    rw [make_ok cfg oracle site_name "posts"
          (some (get_posts_by_date_params year (some m) count)) "GET" none site h,
        dispatchM_read oracle site "posts" (some (get_posts_by_date_params year (some m) count))
          none (pyUpper "GET") (Or.inl rfl)]
    refine ⟨_, rfl, ?_⟩
    show get_posts_by_date_params year (some m) count = _
    simp only [get_posts_by_date_params]
    rw [if_pos (show m ≠ 0 by omega)]
    by_cases h12' : m = 12
    · subst h12'
      rw [if_pos rfl, if_neg (show ¬(12 : Int) < 12 by omega),
          if_neg (show ¬(12 : Int) < 12 by omega)]
      simp [monthStart]
    · have hlt : m < 12 := by omega
      rw [if_neg h12', if_pos hlt, if_pos hlt]
      simp [monthStart, h12']
  · intro month hu
    have hparams : get_posts_by_date_params year month count = yearWindowParams year count := by
      rcases hu with hu | hu <;> subst hu
      · rfl
      · simp only [get_posts_by_date_params]
        rw [if_neg (show ¬(0 : Int) ≠ 0 by omega)]
    unfold get_posts_by_date
    rw [make_ok cfg oracle site_name "posts"
          (some (get_posts_by_date_params year month count)) "GET" none site h,
        dispatchM_read oracle site "posts" (some (get_posts_by_date_params year month count))
          none (pyUpper "GET") (Or.inl rfl)]
    refine ⟨_, rfl, ?_⟩
    show get_posts_by_date_params year month count = _
    rw [hparams]
    unfold yearWindowParams
    rw [yearBound_eq_monthStart, yearBound_eq_monthStart]

/-- Witness for C10 at a concrete input: December 2025 maps to the window
[2025-12-01, 2026-01-01). -/
theorem get_posts_by_date_window_witness :
    get_site cfgBlog "blog" = .ok siteBlog
    ∧ (1 : Int) ≤ 12 ∧ (12 : Int) ≤ 12
    ∧ (get_posts_by_date cfgBlog oracleOk "blog" 2025 (some 12) 10).2.map (fun r => r.query) =
        [[("after", Jval.str "2025-12-01T00:00:00"),
          ("before", Jval.str "2026-01-01T00:00:00"),
          ("per_page", Jval.num 10)]] := by
  refine ⟨rfl, by norm_num, by norm_num, ?_⟩
  obtain ⟨req, heq, hq⟩ :=
    (get_posts_by_date_window cfgBlog oracleOk "blog" siteBlog 2025 10 rfl).1 12
      (by norm_num) (by norm_num)
  rw [heq]
  simp only [List.map_cons, List.map_nil]
  rw [hq]
  rfl

/-- The category comprehension `[cat["name"] for cat in terms]` succeeds
on a list of well-formed term objects and returns their names in order,
without de-duplication (stated over `List.mapM`'s accumulator loop). -/
theorem mapM_name_loop (cs : List Jval) (acc : List Jval) (h : cs.all wfTerm = true) :
    List.mapM.loop (fun cat => pyIndex cat "name") cs acc =
      some (acc.reverse ++ cs.map (fun c => match c with
        | Jval.obj cf => (List.lookup "name" cf).getD Jval.null
        | _ => Jval.null)) := by
  induction cs generalizing acc with
  | nil => simp [List.mapM.loop]
  | cons c cs ih =>
    simp only [List.all_cons, Bool.and_eq_true] at h
    obtain ⟨hc, hcs⟩ := h
    cases c with
    | obj cf =>
      simp only [wfTerm] at hc
      rcases hn : List.lookup "name" cf with _ | v
      · rw [hn] at hc; simp at hc
      · have hpi : pyIndex (Jval.obj cf) "name" = some v := by simp [pyIndex, hn]
        simp [List.mapM.loop, hpi, ih _ hcs, hn]
    | null => simp [wfTerm] at hc
    | bool b => simp [wfTerm] at hc
    | num n => simp [wfTerm] at hc
    | str s => simp [wfTerm] at hc
    | arr xs => simp [wfTerm] at hc

/-- On a well-formed post the category block never raises and computes the
spec's category projection. -/
theorem catBlock_wf (fields : List (String × Jval)) (h : wfPost (.obj fields) = true) :
    catBlock (.obj fields) = some (specCategories fields) := by
  simp only [wfPost, Bool.and_eq_true] at h
  obtain ⟨ht, he⟩ := h
  rcases hemb : List.lookup "_embedded" fields with _ | e
  · simp [catBlock, specCategories, pyIn, hemb]
  · rw [hemb] at he
    cases e with
    | obj ef =>
      simp only [Bool.and_eq_true] at he
      obtain ⟨ha, hw⟩ := he
      rcases hterm : List.lookup "wp:term" ef with _ | w
      · rw [hterm] at hw
        simp [catBlock, specCategories, pyIn, pyIndex, hemb, hterm]
      · rw [hterm] at hw
        cases w with
        | arr ws =>
          cases ws with
          | nil => simp [catBlock, specCategories, pyIn, pyIndex, pyLen, hemb, hterm]
          | cons t0 rest =>
            cases t0 with
            | arr cs =>
              simp only [] at hw
              simp [catBlock, specCategories, pyIn, pyIndex, pyLen, pyIndexNat, pyIterList,
                hemb, hterm]
              exact mapM_name_loop cs [] hw
            | null => simp at hw
            | bool b => simp at hw
            | num n => simp at hw
            | str s => simp at hw
            | obj f => simp at hw
        | null => simp at hw
        | bool b => simp at hw
        | num n => simp at hw
        | str s => simp at hw
        | obj f => simp at hw
    | null => simp at he
    | bool b => simp at he
    | num n => simp at he
    | str s => simp at he
    | arr xs => simp at he

/-- On a well-formed post the author block never raises and computes the
spec's author projection. -/
theorem authorBlock_wf (fields : List (String × Jval)) (h : wfPost (.obj fields) = true) :
    authorBlock (.obj fields) = some (specAuthor fields) := by
  simp only [wfPost, Bool.and_eq_true] at h
  obtain ⟨ht, he⟩ := h
  rcases hemb : List.lookup "_embedded" fields with _ | e
  · simp [authorBlock, specAuthor, pyIn, hemb]
  · rw [hemb] at he
    cases e with
    | obj ef =>
      simp only [Bool.and_eq_true] at he
      obtain ⟨ha, hw⟩ := he
      rcases hau : List.lookup "author" ef with _ | a
      · simp [authorBlock, specAuthor, pyIn, pyIndex, hemb, hau]
      · rw [hau] at ha
        cases a with
        | arr as =>
          cases as with
          | nil => simp [authorBlock, specAuthor, pyIn, pyIndex, pyLen, hemb, hau]
          | cons a0 rest =>
            cases a0 with
            | obj af =>
              simp [authorBlock, specAuthor, pyIn, pyIndex, pyLen, pyIndexNat, pyGet,
                hemb, hau]
            | null => simp at ha
            | bool b => simp at ha
            | num n => simp at ha
            | str s => simp at ha
            | arr xs => simp at ha
        | null => simp at ha
        | bool b => simp at ha
        | num n => simp at ha
        | str s => simp at ha
        | obj f => simp at ha
    | null => simp at he
    | bool b => simp at he
    | num n => simp at he
    | str s => simp at he
    | arr xs => simp at he

/-- On a well-formed post the whole loop body never raises and produces
exactly the spec's summary. -/
theorem summarizePost_wf (post : Jval) (h : wfPost post = true) :
    summarizePost post = some (specSummarize post) := by
  cases post with
  | obj fields =>
    have hcat := catBlock_wf fields h
    have hau := authorBlock_wf fields h
    have ht : (match List.lookup "title" fields with
        | some (.obj _) => true
        | some _ => false
        | none => true) = true := by
      simp only [wfPost, Bool.and_eq_true] at h
      exact h.1
    rcases htl : List.lookup "title" fields with _ | t
    · simp [summarizePost, hcat, hau, pyGet, htl, specSummarize, specTitle]
    · rw [htl] at ht
      cases t with
      | obj tf => simp [summarizePost, hcat, hau, pyGet, htl, specSummarize, specTitle]
      | null => simp at ht
      | bool b => simp at ht
      | num n => simp at ht
      | str s => simp at ht
      | arr xs => simp at ht
  | null => simp [wfPost] at h
  | bool b => simp [wfPost] at h
  | num n => simp [wfPost] at h
  | str s => simp [wfPost] at h
  | arr xs => simp [wfPost] at h

/-- The summarization loop over a list of well-formed posts (stated over
`List.mapM`'s accumulator loop). -/
theorem summarizeAll_loop (posts : List Jval) (acc : List PostSummary)
    (h : ∀ p ∈ posts, wfPost p = true) :
    List.mapM.loop summarizePost posts acc =
      some (acc.reverse ++ posts.map specSummarize) := by
  induction posts generalizing acc with
  | nil => simp [List.mapM.loop]
  | cons p ps ih =>
    simp [List.mapM.loop, summarizePost_wf p (h p (by simp)),
      ih _ (fun q hq => h q (by simp [hq]))]

/-- Claim C6: on every sequence of posts of the conventional WordPress
REST shape (`wfPost`), summarization never raises and produces one
summary per post, equal to the spec's projection: title from
`title.rendered` with default `"No title"`; author and categories from
the `_embedded` side-channel with defaults `"Unknown"` and `[]` when the
side-channel or its arrays are missing or empty; category order preserved
with no de-duplication; `id`/`date`/`link`/`status` carried over
verbatim. -/
theorem summarizeAll_wf (posts : List Jval) (h : ∀ p ∈ posts, wfPost p = true) :
    summarizeAll posts = some (posts.map specSummarize) := by
  have hl := summarizeAll_loop posts [] h
  simpa [summarizeAll, List.mapM] using hl

/-- A post with no `_embedded` side-channel at all. -/
def postPlain : Jval :=
  .obj [("id", .num 7), ("title", .obj [("rendered", .str "Hello")]),
        ("date", .str "2025-05-01T10:00:00"), ("link", .str "https://blog.example/hello"),
        ("status", .str "publish")]

/-- A post with embedded author and term data (with a duplicated category
name, which must be preserved, not de-duplicated). -/
def postEmbedded : Jval :=
  .obj [("id", .num 8), ("title", .obj []),
        ("_embedded", .obj
          [("author", .arr [.obj [("name", .str "Ada")]]),
           ("wp:term", .arr
             [.arr [.obj [("name", .str "News")], .obj [("name", .str "News")]],
              .arr [.obj [("name", .str "tag1")]]])])]

/-- Witness for C6 at concrete inputs: a post without the side-channel
and a post with embedded data are both well-formed, and summarization
returns their spec projections. -/
theorem summarizeAll_wf_witness :
    (∀ p ∈ [postPlain, postEmbedded], wfPost p = true)
    ∧ summarizeAll [postPlain, postEmbedded] =
        some ([postPlain, postEmbedded].map specSummarize) :=
  ⟨by decide, summarizeAll_wf [postPlain, postEmbedded] (by decide)⟩

/-- Whether a response status makes `raise_for_status` raise. -/
def isFail (r : HttpResponse) : Bool := decide (400 ≤ r.status ∧ r.status < 600)

/-- The five GET requests `get_site_stats` makes, in order: posts, pages,
categories, tags, media. -/
def statsReq (site : WordPressSite) : Fin 5 → HttpRequest
  | ⟨0, _⟩ => ⟨"GET", site.get_api_base_url ++ "/" ++ "posts", site.get_auth_headers,
      [("per_page", .num 1), ("status", .str "publish")], none⟩
  | ⟨1, _⟩ => ⟨"GET", site.get_api_base_url ++ "/" ++ "pages", site.get_auth_headers,
      [("per_page", .num 1)], none⟩
  | ⟨2, _⟩ => ⟨"GET", site.get_api_base_url ++ "/" ++ "categories", site.get_auth_headers,
      [("per_page", .num 1)], none⟩
  | ⟨3, _⟩ => ⟨"GET", site.get_api_base_url ++ "/" ++ "tags", site.get_auth_headers,
      [("per_page", .num 1)], none⟩
  | ⟨4, _⟩ => ⟨"GET", site.get_api_base_url ++ "/" ++ "media", site.get_auth_headers,
      [("per_page", .num 1)], none⟩
  | ⟨n + 5, hn⟩ => absurd hn (by omega)

/-- Claim C1 (amended): when the site resolves and exactly one of the five
stats sub-calls fails upstream (the i-th; all others would succeed),
`get_site_stats` does not return a partial report with the other four
results: it returns the error string of the failure, and the sub-calls
after the failing one are never issued (exactly `i + 1` requests go out). -/
theorem site_stats_single_failure_aborts (cfg : Cfg) (oracle : HttpRequest → HttpResponse)
    (site_name : String) (site : WordPressSite) (i : Fin 5)
    (h : get_site cfg site_name = .ok site)
    (hfail : isFail (oracle (statsReq site i)) = true)
    (hok : ∀ j : Fin 5, j ≠ i → isFail (oracle (statsReq site j)) = false) :
    (get_site_stats cfg oracle site_name).1 =
      "Error fetching site stats: " ++
        errStr (.upstream (oracle (statsReq site i)).status (oracle (statsReq site i)).body)
    ∧ (get_site_stats cfg oracle site_name).2.length = i.val + 1 := by
  have hT : ∀ r, isFail r = true → handleResponse r = .error (.upstream r.status r.body) :=
    fun r hr => handleResponse_err r (of_decide_eq_true hr)
  have hF : ∀ r, isFail r = false → handleResponse r = .ok r.body :=
    fun r hr => handleResponse_ok r (of_decide_eq_false hr)
  have e1 : make_wp_request cfg oracle site_name "posts"
      (some [("per_page", Jval.num 1), ("status", Jval.str "publish")]) "GET" none =
      (handleResponse (oracle (statsReq site 0)), [statsReq site 0]) := by
    rw [make_ok cfg oracle site_name "posts"
          (some [("per_page", Jval.num 1), ("status", Jval.str "publish")]) "GET" none site h,
        dispatchM_read oracle site "posts"
          (some [("per_page", Jval.num 1), ("status", Jval.str "publish")]) none
          (pyUpper "GET") (Or.inl rfl)]
    rfl
  have e2 : make_wp_request cfg oracle site_name "pages"
      (some [("per_page", Jval.num 1)]) "GET" none =
      (handleResponse (oracle (statsReq site 1)), [statsReq site 1]) := by
    rw [make_ok cfg oracle site_name "pages" (some [("per_page", Jval.num 1)]) "GET" none site h,
        dispatchM_read oracle site "pages" (some [("per_page", Jval.num 1)]) none
          (pyUpper "GET") (Or.inl rfl)]
    rfl
  have e3 : make_wp_request cfg oracle site_name "categories"
      (some [("per_page", Jval.num 1)]) "GET" none =
      (handleResponse (oracle (statsReq site 2)), [statsReq site 2]) := by
    rw [make_ok cfg oracle site_name "categories" (some [("per_page", Jval.num 1)]) "GET" none
          site h,
        dispatchM_read oracle site "categories" (some [("per_page", Jval.num 1)]) none
          (pyUpper "GET") (Or.inl rfl)]
    rfl
  have e4 : make_wp_request cfg oracle site_name "tags"
      (some [("per_page", Jval.num 1)]) "GET" none =
      (handleResponse (oracle (statsReq site 3)), [statsReq site 3]) := by
    rw [make_ok cfg oracle site_name "tags" (some [("per_page", Jval.num 1)]) "GET" none site h,
        dispatchM_read oracle site "tags" (some [("per_page", Jval.num 1)]) none
          (pyUpper "GET") (Or.inl rfl)]
    rfl
  have e5 : make_wp_request cfg oracle site_name "media"
      (some [("per_page", Jval.num 1)]) "GET" none =
      (handleResponse (oracle (statsReq site 4)), [statsReq site 4]) := by
    rw [make_ok cfg oracle site_name "media" (some [("per_page", Jval.num 1)]) "GET" none site h,
        dispatchM_read oracle site "media" (some [("per_page", Jval.num 1)]) none
          (pyUpper "GET") (Or.inl rfl)]
    rfl
  fin_cases i
  · have f0 := hT _ (show isFail (oracle (statsReq site 0)) = true from hfail)
    simp only [get_site_stats, e1, f0]
    exact ⟨rfl, rfl⟩
  · have f0 := hF _ (show isFail (oracle (statsReq site 0)) = false from hok 0 (by decide))
    have f1 := hT _ (show isFail (oracle (statsReq site 1)) = true from hfail)
    simp only [get_site_stats, e1, e2, f0, f1]
    exact ⟨rfl, rfl⟩
  · have f0 := hF _ (show isFail (oracle (statsReq site 0)) = false from hok 0 (by decide))
    have f1 := hF _ (show isFail (oracle (statsReq site 1)) = false from hok 1 (by decide))
    have f2 := hT _ (show isFail (oracle (statsReq site 2)) = true from hfail)
    simp only [get_site_stats, e1, e2, e3, f0, f1, f2]
    exact ⟨rfl, rfl⟩
  · have f0 := hF _ (show isFail (oracle (statsReq site 0)) = false from hok 0 (by decide))
    have f1 := hF _ (show isFail (oracle (statsReq site 1)) = false from hok 1 (by decide))
    have f2 := hF _ (show isFail (oracle (statsReq site 2)) = false from hok 2 (by decide))
    have f3 := hT _ (show isFail (oracle (statsReq site 3)) = true from hfail)
    simp only [get_site_stats, e1, e2, e3, e4, f0, f1, f2, f3]
    exact ⟨rfl, rfl⟩
  · have f0 := hF _ (show isFail (oracle (statsReq site 0)) = false from hok 0 (by decide))
    have f1 := hF _ (show isFail (oracle (statsReq site 1)) = false from hok 1 (by decide))
    have f2 := hF _ (show isFail (oracle (statsReq site 2)) = false from hok 2 (by decide))
    have f3 := hF _ (show isFail (oracle (statsReq site 3)) = false from hok 3 (by decide))
    have f4 := hT _ (show isFail (oracle (statsReq site 4)) = true from hfail)
    simp only [get_site_stats, e1, e2, e3, e4, e5, f0, f1, f2, f3, f4]
    exact ⟨rfl, rfl⟩

/-- A backend on which only the `pages` read fails. -/
def oraclePagesFail : HttpRequest → HttpResponse := fun req =>
  if req.url = "https://blog.example/wp-json/wp/v2/pages" then ⟨404, .str "nope"⟩
  else ⟨200, .arr []⟩

/-- Witness for C1 (amended) at a concrete input: only the second (pages)
sub-call fails, the aggregate returns the error string and only two
requests are issued. -/
theorem site_stats_single_failure_aborts_witness :
    get_site cfgBlog "blog" = .ok siteBlog
    ∧ isFail (oraclePagesFail (statsReq siteBlog 1)) = true
    ∧ (∀ j : Fin 5, j ≠ 1 → isFail (oraclePagesFail (statsReq siteBlog j)) = false)
    ∧ (get_site_stats cfgBlog oraclePagesFail "blog").1 =
        "Error fetching site stats: " ++ errStr (.upstream 404 (.str "nope"))
    ∧ (get_site_stats cfgBlog oraclePagesFail "blog").2.length = 2 := by
  refine ⟨rfl, by decide, by decide, ?_, ?_⟩
  · exact (site_stats_single_failure_aborts cfgBlog oraclePagesFail "blog" siteBlog 1 rfl
      (by decide) (by decide)).1
  · exact (site_stats_single_failure_aborts cfgBlog oraclePagesFail "blog" siteBlog 1 rfl
      (by decide) (by decide)).2
